import Mathlib

/-!
Verification of the multi-strategy review-extraction pipeline
(`src/scraper.py` and `src/Curl/parse.py`) against its natural-language
specification.  The Python sources are shallowly embedded: BeautifulSoup
selector queries and `json.loads` are modelled as pre-resolved inputs
(a review container is a record of the text each selector would return,
with `none` meaning "no element matched"; a structured-graph payload is
the list of its successfully parsed top-level keyed entries, since the
code silently skips unparseable payloads and non-dict entries), while all
decision logic — fallback cascades, truthiness tests, filters, joins,
deduplication, sorting and padding — is translated function by function.
-/

namespace Webscraping

/-- Python truthiness-based `a or b` for strings (`""` and absent are falsy;
absent optional sub-fields collapse to `""` exactly as `(d.get(k) or {})`
chains do in the source). -/
def pyOrS (a b : String) : String := if a = "" then b else a

/-- Python `str.strip()` restricted to whitespace: drop leading and trailing
whitespace characters. -/
def stripChars (l : List Char) : List Char :=
  ((l.dropWhile Char.isWhitespace).reverse.dropWhile Char.isWhitespace).reverse

/-- `str.strip()` on strings. -/
def pyStrip (s : String) : String := ⟨stripChars s.data⟩

/-- One pass of `re.sub(r"\s+", " ", ·)`: every maximal run of whitespace
becomes a single space.  The boolean records whether the previous character
was whitespace (run already emitted). -/
def squeezeWS : Bool → List Char → List Char
  | _, [] => []
  | prevWS, c :: rest =>
    if c.isWhitespace then
      if prevWS then squeezeWS true rest else ' ' :: squeezeWS true rest
    else c :: squeezeWS false rest

/-- `norm` from src/scraper.py line 21-22: `re.sub(r"\s+", " ", (s or "").strip())`.
Stripping first and then collapsing runs equals collapsing runs and then
stripping the (at most single) boundary spaces. -/
def norm (s : String) : String := ⟨stripChars (squeezeWS false s.data)⟩

/-- `unesc` from src/scraper.py line 24-25: Python `html.unescape`, modelled on
the core named character references (`amp`, `lt`, `gt`, `quot`), each with and
without the trailing semicolon, longest match first — exactly the stdlib's
behaviour on strings using only these references. -/
def unescGo : Bool → List Char → List Char
  | false, [] => []
  | false, c :: rest =>
    if c = '&' then unescGo true rest else c :: unescGo false rest
  | true, 'a' :: 'm' :: 'p' :: ';' :: r => '&' :: unescGo false r
  | true, 'a' :: 'm' :: 'p' :: r => '&' :: unescGo false r
  | true, 'l' :: 't' :: ';' :: r => '<' :: unescGo false r
  | true, 'l' :: 't' :: r => '<' :: unescGo false r
  | true, 'g' :: 't' :: ';' :: r => '>' :: unescGo false r
  | true, 'g' :: 't' :: r => '>' :: unescGo false r
  | true, 'q' :: 'u' :: 'o' :: 't' :: ';' :: r => '"' :: unescGo false r
  | true, 'q' :: 'u' :: 'o' :: 't' :: r => '"' :: unescGo false r
  | true, [] => ['&']
  | true, c :: rest =>
    '&' :: (if c = '&' then unescGo true rest else c :: unescGo false rest)

/-- `unesc(s) = html.unescape(s or "")` (src/scraper.py line 24-25). -/
def unesc (s : String) : String := ⟨unescGo false s.data⟩

/-- Decimal digit test, as the regex class `[0-9]`. -/
def isDigitChar (c : Char) : Bool := '0' ≤ c && c ≤ '9'

/-- Numeric value of a digit string. -/
def digitsToNat (l : List Char) : Nat :=
  l.foldl (fun a c => a * 10 + (c.toNat - '0'.toNat)) 0

/-- Match `\s*star` (case-insensitive) at the head of the list, as the tail of
the rating regex `([0-9]+(?:\.[0-9]+)?)\s*star`. -/
def matchStar (l : List Char) : Bool :=
  match l.dropWhile Char.isWhitespace with
  | s :: t :: a :: r :: _ =>
    s.toLower = 's' && t.toLower = 't' && a.toLower = 'a' && r.toLower = 'r'
  | _ => false

/-- Try to match `([0-9]+(?:\.[0-9]+)?)\s*star` anchored at the current
position, returning the numeric value.  Regex backtracking inside the number
group can never rescue a failed match here (shortening a maximal digit run
leaves a digit where `\s*star` must start, and dropping the fraction group
leaves a `.`), so maximal munch is exact. -/
def matchNumStar (l : List Char) : Option ℚ :=
  let ds := l.takeWhile isDigitChar
  let rest := l.dropWhile isDigitChar
  if ds = [] then none
  else
    match rest with
    | '.' :: rest2 =>
      let fs := rest2.takeWhile isDigitChar
      let rest3 := rest2.dropWhile isDigitChar
      if fs = [] then none
      else if matchStar rest3 then
        some ((digitsToNat ds : ℚ) + (digitsToNat fs : ℚ) / (10 : ℚ) ^ fs.length)
      else none
    | _ => if matchStar rest then some ((digitsToNat ds : ℚ) : ℚ) else none

/-- `re.search(r"([0-9]+(?:\.[0-9]+)?)\s*star", label, re.I)`: leftmost match
wins, scanning start positions left to right. -/
def ratingScan : List Char → Option ℚ
  | [] => none
  | c :: rest =>
    match matchNumStar (c :: rest) with
    | some q => some q
    | none => ratingScan rest

/-- `rating_from_label` (src/Curl/parse.py lines 43-48) and the inline regex of
src/scraper.py lines 100-102: extract a numeric rating from an ARIA label. -/
def rating_from_label : Option String → Option ℚ
  | none => none
  | some lbl => ratingScan lbl.data

/-- Suffix of a string after its first colon; the whole string when it has no
colon — Python `s.split(":", 1)[-1]`. -/
def afterColonAux : List Char → Option (List Char)
  | [] => none
  | ':' :: rest => some rest
  | _ :: rest => afterColonAux rest

/-- `s.split(":", 1)[-1]` as used for graph keys and author references. -/
def afterFirstColon (s : String) : String := ⟨(afterColonAux s.data).getD s.data⟩

/-- Python dict lookup `d.get(k)` over an insertion-ordered association list;
later insertions of the same key overwrite earlier ones, so the last binding
wins. -/
def dget (m : List (String × String)) (k : String) : Option String :=
  m.foldl (fun acc p => if p.1 = k then some p.2 else acc) none

/-- A top-level keyed entry of an embedded structured-graph payload, as the
`Review`/`User` branches of `parse_json_blobs` (src/scraper.py lines 55-74)
read it.  Optional string sub-fields collapse to `""` (absent and `""` are
both falsy under the source's `or`-chains); `rating` is carried verbatim. -/
structure GraphNode where
  typename : String
  displayName : String
  textFull : String
  textPlain : String
  encid : String
  reviewId : String
  rating : Option ℚ
  createdAtLocal : String
  localizedDate : String
  authorRef : String
  deriving DecidableEq

/-- A review node emitted by the structured-graph extractor, still carrying
its unresolved `author_ref` (src/scraper.py lines 68-74). -/
structure GReview where
  review_id : String
  author_ref : String
  stars : Option ℚ
  date : String
  text : String
  deriving DecidableEq

/-- The common record shape flowing through scraper.py's aggregation:
`review_id` is `some` for structured-graph records and `none` for DOM-fallback
records (src/scraper.py lines 68-74 and 125-131). -/
structure SRecord where
  review_id : Option String
  reviewer : String
  stars : Option ℚ
  date : String
  text : String
  deriving DecidableEq

/-- The `Review` branch of `parse_json_blobs` for one keyed entry
(src/scraper.py lines 64-74): take `text.full` falling back to `text.plain`;
skip the node when the stripped text is empty; otherwise build the record
with `encid or reviewId or key` as id, the author reference's suffix after
its first colon, the verbatim rating, and the business-local timestamp
falling back to the localized date. -/
def reviewOfNode (key : String) (n : GraphNode) : Option GReview :=
  if n.typename = "Review" then
    let text := pyOrS n.textFull n.textPlain
    if pyStrip text = "" then none
    else some
      { review_id := pyOrS (pyOrS n.encid n.reviewId) key
        author_ref := afterFirstColon n.authorRef
        stars := n.rating
        date := pyOrS n.createdAtLocal n.localizedDate
        text := norm text }
  else none

/-- The review half of `parse_json_blobs` over all parsed entries of all
parseable payloads of a page, in document order (src/scraper.py lines 40-75);
the `User` pass never feeds back into this one. -/
def reviewsOfEntries (entries : List (String × GraphNode)) : List GReview :=
  entries.filterMap (fun e => reviewOfNode e.1 e.2)

/-- The `User` half of `parse_json_blobs` (src/scraper.py lines 59-63):
register `key-suffix -> unescaped displayName`, skipping entries whose id or
name is empty; insertion order preserved so that `dget`'s last-wins lookup
models dict overwrite. -/
def usersOfEntries (entries : List (String × GraphNode)) : List (String × String) :=
  entries.foldl
    (fun m e =>
      if e.2.typename = "User" then
        let uid := afterFirstColon e.1
        let name := unesc e.2.displayName
        if uid ≠ "" ∧ name ≠ "" then m ++ [(uid, name)] else m
      else m) []

/-- `attach_names` (src/scraper.py lines 134-137): resolve `author_ref`
through the users table, defaulting to the empty string when the id is
missing, and drop the reference field. -/
def attach_names (users : List (String × String)) (r : GReview) : SRecord :=
  { review_id := some r.review_id
    reviewer := (dget users r.author_ref).getD ""
    stars := r.stars
    date := r.date
    text := r.text }

/-- A `<time>` element inside a review container: its `datetime` attribute
(when present) and its visible text. -/
structure TimeElem where
  datetimeAttr : Option String
  visibleText : String
  deriving DecidableEq

/-- One discovered review container, modelled as the result each CSS selector
of the two DOM extractors would produce on it: `none` means the selector
matches no element, `some s` that it matches an element whose extracted text
(or attribute value) is `s` — possibly empty. -/
structure Block where
  userPassportA : Option String
  authorNameTestid : Option String
  userDetailsA : Option String
  userDisplayName : Option String
  strongEl : Option String
  ratingAria : Option String
  ratingAriaFb : Option String
  yCssDate : Option String
  reviewDateTestid : Option String
  spanHasTime : Option String
  timeEl : Option TimeElem
  textSel : Option String
  reviewComment : Option String
  breakWords : Option String
  pEl : Option String
  rcRaw : Option String
  deriving DecidableEq

/-- The empty container: no selector matches anything. -/
def emptyBlock : Block :=
  { userPassportA := none, authorNameTestid := none, userDetailsA := none
    userDisplayName := none, strongEl := none, ratingAria := none
    ratingAriaFb := none, yCssDate := none, reviewDateTestid := none
    spanHasTime := none, timeEl := none, textSel := none, reviewComment := none
    breakWords := none, pEl := none, rcRaw := none }

/-- scraper.py's selector loops (`el = b.select_one(sel); if el: v = text; break`):
the first selector that matches an ELEMENT wins, even when that element's
text is empty. -/
def firstElt : List (Option String) → Option String
  | [] => none
  | some s :: _ => some s
  | none :: rest => firstElt rest

/-- parse.py's `first(*values)` combined with `or`-chains: the first candidate
that is present AND non-empty wins. -/
def firstTruthy : List (Option String) → Option String
  | [] => none
  | some s :: rest => if s = "" then firstTruthy rest else some s
  | none :: rest => firstTruthy rest

/-- Python truthiness of an optional string (`None` and `""` falsy). -/
def truthyOS : Option String → Bool
  | none => false
  | some s => s ≠ ""

/-- Python truthiness of an optional number (`None` and `0.0` falsy). -/
def truthyOQ : Option ℚ → Bool
  | none => false
  | some q => q ≠ 0

/-- Reviewer resolution of `parse_dom_fallback` (src/scraper.py lines 90-95):
loop over five selectors, break on the first matching element (its text may
be empty). -/
def s_reviewer (b : Block) : Option String :=
  firstElt [b.userPassportA, b.authorNameTestid, b.userDetailsA,
            b.userDisplayName, b.strongEl]

/-- Rating resolution of `parse_dom_fallback` (src/scraper.py lines 98-102):
pick the primary star element, else the generic one, then run the rating
regex on its label; no second element is tried when the regex fails. -/
def s_rating (b : Block) : Option ℚ :=
  rating_from_label (b.ratingAria.orElse fun _ => b.ratingAriaFb)

/-- The visible-text date loop of `parse_dom_fallback` (src/scraper.py lines
105-110): four selectors, break on the first matching element. -/
def s_dateVis (b : Block) : String :=
  (firstElt [b.yCssDate, b.reviewDateTestid, b.timeEl.map TimeElem.visibleText,
             b.spanHasTime]).getD ""

/-- Date resolution of `parse_dom_fallback` (src/scraper.py lines 105-114):
only when the visible-text loop produced an empty date is `b.find("time")`
consulted for a machine-readable `datetime` attribute. -/
def s_date (b : Block) : String :=
  let d := s_dateVis b
  if d = "" then
    match b.timeEl with
    | some t => t.datetimeAttr.getD ""
    | none => ""
  else d

/-- Text resolution of `parse_dom_fallback` (src/scraper.py lines 117-122). -/
def s_text (b : Block) : String :=
  (firstElt [b.textSel, b.reviewComment, b.breakWords, b.pEl]).getD ""

/-- One container's contribution in `parse_dom_fallback` (src/scraper.py lines
124-131): a record is appended only when `reviewer or rating or text` is
truthy — the date does not participate in the guard. -/
def s_record? (b : Block) : Option SRecord :=
  let reviewer := s_reviewer b
  let rating := s_rating b
  let text := s_text b
  if truthyOS reviewer ∨ truthyOQ rating ∨ text ≠ "" then
    some { review_id := none
           reviewer := reviewer.getD ""
           stars := rating
           date := s_date b
           text := norm text }
  else none

/-- `parse_dom_fallback` (src/scraper.py lines 77-132) over the discovered
containers. -/
def parse_dom_fallback (bs : List Block) : List SRecord :=
  bs.filterMap s_record?

/-- Identity key of `dedupe` (src/scraper.py line 144):
`r.get("review_id") or f"{reviewer}|{date}"`. -/
def keyOf (r : SRecord) : String :=
  match r.review_id with
  | some i => if i = "" then r.reviewer ++ "|" ++ r.date else i
  | none => r.reviewer ++ "|" ++ r.date

/-- The filtering pass of `dedupe` (src/scraper.py lines 140-148): skip
records with empty text, then keep the first record per identity key using a
seen-set. -/
def dedupeAux (seen : List String) : List SRecord → List SRecord
  | [] => []
  | r :: rest =>
    if r.text = "" then dedupeAux seen rest
    else if keyOf r ∈ seen then dedupeAux seen rest
    else r :: dedupeAux (keyOf r :: seen) rest

/-- Stable insertion for the descending-by-date sort: `r` goes before the
first element whose date is not greater, so equal dates keep encounter
order — the semantics of Python's stable `sort(key=date, reverse=True)`. -/
def insertDesc (r : SRecord) : List SRecord → List SRecord
  | [] => [r]
  | x :: xs => if r.date < x.date then x :: insertDesc r xs else r :: x :: xs

/-- Stable descending-by-date sort (src/scraper.py line 149). -/
def sortDesc : List SRecord → List SRecord
  | [] => []
  | x :: xs => insertDesc x (sortDesc xs)

/-- `dedupe` (src/scraper.py lines 139-150): drop empty-text records, keep
first record per key, then sort by date string descending (stable). -/
def dedupe (rs : List SRecord) : List SRecord :=
  sortDesc (dedupeAux [] rs)

/-- One saved page, as the per-page loop of scraper.py's `main` sees it:
the parsed structured-graph entries of its script payloads, and the review
containers its DOM would yield. -/
structure Page where
  entries : List (String × GraphNode)
  blocks : List Block

/-- The per-page strategy choice of scraper.py's `main` (lines 197-203):
when the structured-graph extractor yields any reviews, attach author names
and use them; only otherwise run the DOM fallback. -/
def page_reviews (p : Page) : List SRecord :=
  let jr := reviewsOfEntries p.entries
  if jr = [] then parse_dom_fallback p.blocks
  else jr.map (attach_names (usersOfEntries p.entries))

/-- scraper.py's `main` (lines 192-206): accumulate every page's chosen
review list in input order, then deduplicate and sort globally. -/
def scraper_run (pages : List Page) : List SRecord :=
  dedupe (pages.flatMap page_reviews)

/-- The `--min` threshold of scraper.py (default 15, lines 177 and 209-210):
it only gates a console note; no padding is attached to it. -/
def scraper_min_default : Nat := 15

/-- The (only) effect of scraper.py's floor: `len(final_rows) < args.min`
prints a note (src/scraper.py lines 209-210); the record list is unchanged. -/
def scraper_warns (pages : List Page) (min : Nat) : Bool :=
  (scraper_run pages).length < min

/-- The value stored in parse.py's `review_count` field: `None`, a parsed
integer, or — through the `except` branch of lines 178-181 — the raw
selector text itself. -/
inductive RCVal where
  | rcNone : RCVal
  | rcInt : Nat → RCVal
  | rcStr : String → RCVal
  deriving DecidableEq

/-- Python truthiness of a `review_count` value inside `any([...])`
(src/Curl/parse.py line 184): `None`, `0` and `""` are falsy. -/
def rcTruthy : RCVal → Bool
  | RCVal.rcNone => false
  | RCVal.rcInt n => n ≠ 0
  | RCVal.rcStr s => s ≠ ""

/-- Character class `[0-9,]` of the review-count regex. -/
def isRCChar (c : Char) : Bool := isDigitChar c || c = ','

/-- `re.search(r"([0-9,]+)", s)`: the leftmost maximal run of digits and
commas, or `none` when the string has neither. -/
def firstRCRun : List Char → Option (List Char)
  | [] => none
  | c :: rest =>
    if isRCChar c then some (c :: rest.takeWhile isRCChar)
    else firstRCRun rest

/-- The comma-strip-and-parse step of the review-count resolution
(src/Curl/parse.py lines 176-181): on a `[0-9,]+` match, strip commas and
parse the digits; `int("")` raises when the match was all commas, and the
`except` branch stores the raw selector text instead. -/
def rcOfRun (raw : String) : Option (List Char) → RCVal
  | none => RCVal.rcNone
  | some grp =>
    let ds := grp.filter (fun c => c ≠ ',')
    if ds = [] then RCVal.rcStr raw else RCVal.rcInt (digitsToNat ds)

/-- The review-count resolution, assembled: truthiness gate, regex search,
comma-stripping and parse (src/Curl/parse.py lines 172-181). -/
def rc_of : Option String → RCVal
  | none => RCVal.rcNone
  | some raw =>
    if raw = "" then RCVal.rcNone else rcOfRun raw (firstRCRun raw.data)

/-- A record of parse.py's `parse_reviews` (src/Curl/parse.py lines 185-191). -/
structure PReview where
  reviewer : String
  rating : Option ℚ
  date : String
  text : String
  review_count : RCVal
  deriving DecidableEq

/-- Reviewer resolution of `parse_reviews` (src/Curl/parse.py lines 138-143):
`txt(primary) or first(four fallbacks) or "Anonymous"` — empty texts fall
through, so the result is the first non-empty candidate or the sentinel. -/
def p_reviewer (b : Block) : String :=
  (firstTruthy [b.userPassportA, b.authorNameTestid, b.userDetailsA,
                b.userDisplayName, b.strongEl]).getD "Anonymous"

/-- Rating resolution of `parse_reviews` (src/Curl/parse.py lines 146-150):
run the regex on the primary element's label; when that yields `None`
(element absent or regex miss), retry on the generic starred element. -/
def p_rating (b : Block) : Option ℚ :=
  match rating_from_label b.ratingAria with
  | some q => some q
  | none => rating_from_label b.ratingAriaFb

/-- Date resolution of `parse_reviews` (src/Curl/parse.py lines 152-163):
the styled span's text wins when truthy; else a `<time>` element's `datetime`
attribute when it has one; else the truthy-first chain over the test-id span,
`span:has(time)` and the `<time>` element's visible text. -/
def p_date (b : Block) : String :=
  let d := b.yCssDate.getD ""
  if d = "" then
    match b.timeEl with
    | some t =>
      match t.datetimeAttr with
      | some dt => dt
      | none =>
        (firstTruthy [b.reviewDateTestid, b.spanHasTime,
                      some t.visibleText]).getD ""
    | none =>
      (firstTruthy [b.reviewDateTestid, b.spanHasTime]).getD ""
  else d

/-- Text resolution of `parse_reviews` (src/Curl/parse.py lines 166-170). -/
def p_text (b : Block) : String :=
  (firstTruthy [b.textSel, b.reviewComment, b.breakWords, b.pEl]).getD ""

/-- One container's contribution in `parse_reviews` (src/Curl/parse.py lines
183-191): the record is appended when `any([reviewer, rating, date, text,
review_count])` is truthy; date and text are stripped in the stored record. -/
def p_block? (b : Block) : Option PReview :=
  let reviewer := p_reviewer b
  let rating := p_rating b
  let date := p_date b
  let text := p_text b
  let rc := rc_of b.rcRaw
  if reviewer ≠ "" ∨ truthyOQ rating ∨ date ≠ "" ∨ text ≠ "" ∨ rcTruthy rc then
    some { reviewer := reviewer, rating := rating, date := pyStrip date
           text := pyStrip text, review_count := rc }
  else none

/-- `parse_reviews` (src/Curl/parse.py lines 110-193) over the discovered
containers. -/
def parse_reviews (bs : List Block) : List PReview :=
  bs.filterMap p_block?

/-- The padding placeholder of parse.py's `main` (src/Curl/parse.py line 224). -/
def padPlaceholder : PReview :=
  { reviewer := "Anonymous", rating := none, date := "", text := ""
    review_count := RCVal.rcNone }

/-- parse.py's hardcoded minimum-yield floor (src/Curl/parse.py line 222). -/
def parse_floor : Nat := 5

/-- The padding step of parse.py's `main` (src/Curl/parse.py lines 221-224):
when fewer than five reviews were extracted, append placeholders up to five. -/
def padReviews (reviews : List PReview) : List PReview :=
  if reviews.length < parse_floor then
    reviews ++ List.replicate (parse_floor - reviews.length) padPlaceholder
  else reviews

/-- parse.py's review pipeline for one page (src/Curl/parse.py lines
219-224): extract, then pad to the floor. -/
def parse_run (bs : List Block) : List PReview :=
  padReviews (parse_reviews bs)

/-- Modelled from the spec: the Strategy Merge/Precedence Resolver of §4.5 for
the review list.  The semantic-markup extractor (§4.3) and the three-way
resolver are not among the given source files (only the structured-graph /
DOM two-way instance of scraper.py's `main` is); per the spec's words the
choice is strict whole-list precedence: §4.2's output when non-empty, else
§4.3's when non-empty, else §4.4's. -/
def choose_reviews {α : Type} (g s d : List α) : List α :=
  match g, s with
  | _ :: _, _ => g
  | [], _ :: _ => s
  | [], [] => d

/-- ISO `YYYY-MM-DD` shape: four digits, dash, two digits, dash, two digits. -/
def dateShape : List Char → Bool
  | [y1, y2, y3, y4, '-', m1, m2, '-', d1, d2] =>
    isDigitChar y1 && isDigitChar y2 && isDigitChar y3 && isDigitChar y4 &&
    isDigitChar m1 && isDigitChar m2 && isDigitChar d1 && isDigitChar d2
  | _ => false

/-- `HH:MM:SS` shape. -/
def timeShape : List Char → Bool
  | [h1, h2, ':', m1, m2, ':', s1, s2] =>
    isDigitChar h1 && isDigitChar h2 && isDigitChar m1 && isDigitChar m2 &&
    isDigitChar s1 && isDigitChar s2
  | _ => false

/-- ISO timestamp without zone: `YYYY-MM-DDTHH:MM:SS`. -/
def tsNoZone (l : List Char) : Bool :=
  l.length = 19 && dateShape (l.take 10) && (l.get? 10 = some 'T') &&
  timeShape (l.drop 11)

/-- Zone suffix shape: `Z` or `±HH:MM`. -/
def zoneShape : List Char → Bool
  | ['Z'] => true
  | [sgn, h1, h2, ':', m1, m2] =>
    (sgn = '+' || sgn = '-') && isDigitChar h1 && isDigitChar h2 &&
    isDigitChar m1 && isDigitChar m2
  | _ => false

/-- ISO timestamp with zone. -/
def tsZone (l : List Char) : Bool :=
  tsNoZone (l.take 19) && zoneShape (l.drop 19)

/-- Modelled from the spec: `parse_date` (§4.1) is not among the given source
files.  Per the spec's words it attempts, in order, the
full-timestamp-with-zone, full-timestamp-without-zone and date-only ISO
forms; on success it returns the date component as `YYYY-MM-DD`, on failure
the input unchanged, and it never raises (it is a total Lean function). -/
def parse_date (s : String) : String :=
  let l := s.data
  if tsZone l then ⟨l.take 10⟩
  else if tsNoZone l then ⟨l.take 10⟩
  else if dateShape l then ⟨l.take 10⟩
  else s

/-! Helper lemmas. -/

theorem unescGo_cons_ne (c : Char) (l : List Char) (h : c ≠ '&') :
    unescGo false (c :: l) = c :: unescGo false l := by
  simp [unescGo, h]

theorem unescGo_no_amp : ∀ (l : List Char), '&' ∉ l → unescGo false l = l := by
  intro l
  induction l with
  | nil => intro _; rfl
  | cons c rest ih =>
    intro h
    have hc : c ≠ '&' := fun he => h (he ▸ List.mem_cons_self c rest)
    rw [unescGo_cons_ne c rest hc, ih (fun hm => h (List.mem_cons_of_mem c hm))]

theorem firstTruthy_ne_empty : ∀ (l : List (Option String)) (s : String),
    firstTruthy l = some s → s ≠ "" := by
  intro l
  induction l with
  | nil => intro s h; simp [firstTruthy] at h
  | cons o rest ih =>
    intro s h
    match o with
    | none => exact ih s (by simpa [firstTruthy] using h)
    | some v =>
      unfold firstTruthy at h
      by_cases hv : v = ""
      · exact ih s (by simpa [hv] using h)
      · simp [hv] at h
        exact h ▸ hv

theorem p_reviewer_ne (b : Block) : p_reviewer b ≠ "" := by
  unfold p_reviewer
  cases h : firstTruthy [b.userPassportA, b.authorNameTestid, b.userDetailsA,
      b.userDisplayName, b.strongEl] with
  | none => simp
  | some s => simpa using firstTruthy_ne_empty _ s h

theorem reviewOfNode_empty_text (k : String) (n : GraphNode)
    (hf : n.textFull = "") (hp : n.textPlain = "") : reviewOfNode k n = none := by
  unfold reviewOfNode
  rw [hf, hp]
  by_cases ht : n.typename = "Review"
  · rw [if_pos ht, if_pos (by decide : pyStrip (pyOrS "" "") = "")]
  · rw [if_neg ht]

theorem dedupeAux_key_notin (rs : List SRecord) : ∀ (seen : List String) (k : String),
    k ∈ seen → ∀ x ∈ dedupeAux seen rs, keyOf x ≠ k := by
  induction rs with
  | nil => intro seen k hk x hx; simp [dedupeAux] at hx
  | cons r rest ih =>
    intro seen k hk x hx
    unfold dedupeAux at hx
    by_cases h1 : r.text = ""
    · exact ih seen k hk x (by simpa [h1] using hx)
    · by_cases h2 : keyOf r ∈ seen
      · exact ih seen k hk x (by simpa [h1, h2] using hx)
      · simp only [h1, h2, if_neg, if_pos, ite_false, ite_true, List.mem_cons] at hx
        rcases hx with rfl | hx
        · exact fun he => h2 (he ▸ hk)
        · exact ih _ k (List.mem_cons_of_mem _ hk) x hx

theorem dedupeAux_pairwise (rs : List SRecord) : ∀ (seen : List String),
    (dedupeAux seen rs).Pairwise (fun a b => keyOf a ≠ keyOf b) := by
  induction rs with
  | nil => intro seen; simp [dedupeAux]
  | cons r rest ih =>
    intro seen
    unfold dedupeAux
    by_cases h1 : r.text = ""
    · simpa [h1] using ih seen
    · by_cases h2 : keyOf r ∈ seen
      · simpa [h1, h2] using ih seen
      · simp only [h1, h2, ite_false, ite_true, if_neg, if_pos]
        refine List.pairwise_cons.mpr ⟨?_, ih _⟩
        intro b hb
        exact fun he =>
          dedupeAux_key_notin rest _ (keyOf r) (List.mem_cons_self _ _) b hb he.symm

theorem pairwise_key_filter_len (l : List SRecord)
    (h : l.Pairwise (fun a b => keyOf a ≠ keyOf b)) (k : String) :
    (l.filter (fun x => keyOf x == k)).length ≤ 1 := by
  induction l with
  | nil => simp
  | cons a l ih =>
    rcases List.pairwise_cons.mp h with ⟨ha, hl⟩
    by_cases hk : keyOf a = k
    · have hnil : l.filter (fun x => keyOf x == k) = [] := by
        apply List.filter_eq_nil_iff.mpr
        intro b hb
        simp only [beq_iff_eq]
        exact fun hbk => ha b hb (by rw [hk, hbk])
      simp [List.filter_cons, hk, hnil]
    · simpa [List.filter_cons, hk] using ih hl

theorem insertDesc_perm (r : SRecord) (l : List SRecord) :
    List.Perm (insertDesc r l) (r :: l) := by
  induction l with
  | nil => exact List.Perm.refl _
  | cons x xs ih =>
    unfold insertDesc
    by_cases h : r.date < x.date
    · simp only [if_pos h]
      exact (ih.cons x).trans (List.Perm.swap r x xs)
    · simp [h]

theorem sortDesc_perm (l : List SRecord) : List.Perm (sortDesc l) l := by
  induction l with
  | nil => exact List.Perm.refl _
  | cons x xs ih => exact (insertDesc_perm x (sortDesc xs)).trans (ih.cons x)

theorem dedupeAux_mem_first (r : SRecord) (l2 : List SRecord) (hr : r.text ≠ "") :
    ∀ (l1 : List SRecord) (seen : List String), keyOf r ∉ seen →
    (∀ r' ∈ l1, r'.text ≠ "" → keyOf r' ≠ keyOf r) →
    r ∈ dedupeAux seen (l1 ++ r :: l2) := by
  intro l1
  induction l1 with
  | nil =>
    intro seen hs _
    simp only [List.nil_append]
    unfold dedupeAux
    simp [hr, hs]
  | cons a l1 ih =>
    intro seen hs hfirst
    simp only [List.cons_append]
    unfold dedupeAux
    by_cases h1 : a.text = ""
    · simpa [h1] using
        ih seen hs (fun r' h ht => hfirst r' (List.mem_cons_of_mem _ h) ht)
    · by_cases h2 : keyOf a ∈ seen
      · simpa [h1, h2] using
          ih seen hs (fun r' h ht => hfirst r' (List.mem_cons_of_mem _ h) ht)
      · simp only [h1, h2, ite_false, ite_true, if_neg, if_pos, List.mem_cons]
        right
        refine ih (keyOf a :: seen) ?_
          (fun r' h ht => hfirst r' (List.mem_cons_of_mem _ h) ht)
        intro hmem
        rcases List.mem_cons.mp hmem with he | he
        · exact hfirst a (List.mem_cons_self _ _) h1 he.symm
        · exact hs he

theorem firstRCRun_ne_nil : ∀ (l grp : List Char), firstRCRun l = some grp → grp ≠ [] := by
  intro l
  induction l with
  | nil => intro grp h; simp [firstRCRun] at h
  | cons c rest ih =>
    intro grp h
    simp only [firstRCRun] at h
    by_cases hc : isRCChar c = true
    · rw [if_pos hc] at h
      injection h with h
      rw [← h]
      simp
    · rw [if_neg hc] at h
      exact ih grp h

theorem dateShape_len (l : List Char) (h : dateShape l = true) :
    l.length = 10 := by
  unfold dateShape at h
  split at h
  · simp_all
  · exact absurd h (by simp)

theorem tsNoZone_dateShape (l : List Char) (h : tsNoZone l = true) :
    dateShape (l.take 10) = true := by
  unfold tsNoZone at h
  simp only [Bool.and_eq_true] at h
  exact h.1.1.2

/-- The two-strategy choice of scraper.py's `main` is exactly the spec's
resolver instantiated with an empty semantic-markup output. -/
theorem page_reviews_eq_choose (p : Page) :
    page_reviews p =
      choose_reviews
        ((reviewsOfEntries p.entries).map (attach_names (usersOfEntries p.entries)))
        [] (parse_dom_fallback p.blocks) := by
  unfold page_reviews
  cases h : reviewsOfEntries p.entries <;> simp [choose_reviews, h]

/-! Claim theorems. -/

/-- Claim C1: the final review list of a page is chosen by strict whole-list
precedence — the structured-graph output when non-empty, else the
semantic-markup output when non-empty, else the heuristic DOM output — and
the chosen list is one of the three inputs wholesale, so no record mixes
fields from two strategies. -/
theorem c1_strategy_precedence (g s d : List SRecord) :
    (g ≠ [] → choose_reviews g s d = g) ∧
    (g = [] → s ≠ [] → choose_reviews g s d = s) ∧
    (g = [] → s = [] → choose_reviews g s d = d) ∧
    (choose_reviews g s d = g ∨ choose_reviews g s d = s ∨
      choose_reviews g s d = d) := by
  cases g <;> cases s <;> simp [choose_reviews]

/-- Witness for C1 at concrete strategy outputs. -/
theorem c1_witness :
    choose_reviews [(⟨some "a", "r", none, "", "t"⟩ : SRecord)] []
      [⟨none, "x", none, "", "y"⟩] = [⟨some "a", "r", none, "", "t"⟩] :=
  (c1_strategy_precedence _ _ _).1 (by decide)

/-- Claim C2, amended: in Curl/parse.py every emitted record's reviewer is
non-empty (the cascade defaults to the sentinel "Anonymous"), but in
scraper.py an author reference that is not in the users table resolves to
the empty string, not to a sentinel. -/
theorem c2_reviewer_amended :
    (∀ (b : Block) (r : PReview), p_block? b = some r → r.reviewer ≠ "") ∧
    (∀ (users : List (String × String)) (gr : GReview),
      dget users gr.author_ref = none → (attach_names users gr).reviewer = "") := by
  constructor
  · intro b r h
    have hne := p_reviewer_ne b
    unfold p_block? at h
    rw [if_pos (Or.inl hne)] at h
    injection h with h
    rw [← h]
    exact hne
  · intro users gr h
    simp [attach_names, h]

/-- Witness for C2 (amended) at concrete inputs. -/
theorem c2_witness :
    (∀ r : PReview, p_block? emptyBlock = some r → r.reviewer ≠ "") ∧
    (attach_names [] ⟨"e1", "abc", none, "", "t"⟩).reviewer = "" :=
  ⟨fun r h => c2_reviewer_amended.1 emptyBlock r h,
   c2_reviewer_amended.2 [] ⟨"e1", "abc", none, "", "t"⟩ (by decide)⟩

/-- Counterexample to C2 as stated: a full scraper.py run over one page with
one structured-graph review whose author reference resolves to no User node
puts a record with empty (not sentinel) reviewer and non-empty text into the
final output. -/
theorem c2_counterexample :
    scraper_run
        [⟨[("k", ⟨"Review", "", "Great food", "", "e1", "", none, "", "", "User:abc"⟩)], []⟩]
      = [⟨some "e1", "", none, "", "Great food"⟩] ∧
    (⟨some "e1", "", none, "", "Great food"⟩ : SRecord).reviewer = "" ∧
    (⟨some "e1", "", none, "", "Great food"⟩ : SRecord).text ≠ "" := by decide

/-- Claim C3: a Review-typed structured-graph node whose `text.full` and
`text.plain` are both empty contributes nothing to the extractor's output,
whatever its other fields hold — removing it from the entry list leaves the
output unchanged. -/
theorem c3_empty_text_skipped (pre post : List (String × GraphNode))
    (k : String) (n : GraphNode)
    (_ht : n.typename = "Review") (hf : n.textFull = "") (hp : n.textPlain = "") :
    reviewsOfEntries (pre ++ (k, n) :: post) = reviewsOfEntries (pre ++ post) := by
  unfold reviewsOfEntries
  rw [List.filterMap_append, List.filterMap_append]
  congr 1
  rw [List.filterMap_cons_none]
  exact reviewOfNode_empty_text k n hf hp

/-- Witness for C3: an empty-text Review node between a User node and a
normal review vanishes from the output. -/
theorem c3_witness :
    reviewsOfEntries
        [("u", ⟨"User", "Amy", "", "", "", "", none, "", "", ""⟩),
         ("k", ⟨"Review", "", "", "", "e0", "", some 5, "2023-01-01", "", "User:a"⟩),
         ("k2", ⟨"Review", "", "Nice", "", "e1", "", none, "", "", ""⟩)] =
      reviewsOfEntries
        [("u", ⟨"User", "Amy", "", "", "", "", none, "", "", ""⟩),
         ("k2", ⟨"Review", "", "Nice", "", "e1", "", none, "", "", ""⟩)] :=
  c3_empty_text_skipped
    [("u", ⟨"User", "Amy", "", "", "", "", none, "", "", ""⟩)]
    [("k2", ⟨"Review", "", "Nice", "", "e1", "", none, "", "", ""⟩)]
    "k" ⟨"Review", "", "", "", "e0", "", some 5, "2023-01-01", "", "User:a"⟩
    rfl rfl rfl

/-- Claim C4, amended: among records with non-empty text (records with empty
text are unconditionally dropped before the key check), the deduplicator
keeps the first record per identity key in encounter order, and the output
never holds two records with the same key. -/
theorem c4_dedupe_amended (l1 l2 : List SRecord) (r : SRecord)
    (hr : r.text ≠ "")
    (hfirst : ∀ r' ∈ l1, r'.text ≠ "" → keyOf r' ≠ keyOf r) :
    r ∈ dedupe (l1 ++ r :: l2) ∧
    ∀ k : String,
      ((dedupe (l1 ++ r :: l2)).filter (fun x => keyOf x == k)).length ≤ 1 := by
  constructor
  · exact ((sortDesc_perm _).mem_iff).mpr
      (dedupeAux_mem_first r l2 hr l1 [] (by simp) hfirst)
  · intro k
    have hperm := (sortDesc_perm (dedupeAux [] (l1 ++ r :: l2))).filter
      (fun x => keyOf x == k)
    rw [dedupe, hperm.length_eq]
    exact pairwise_key_filter_len _ (dedupeAux_pairwise _ _) k

/-- Witness for C4 (amended): the first of two same-key records with
different non-empty texts survives, and keys are unique in the output. -/
theorem c4_witness :
    (⟨some "K", "Amy", none, "d1", "good"⟩ : SRecord) ∈
      dedupe [⟨none, "Bob", none, "d0", "x"⟩,
              ⟨some "K", "Amy", none, "d1", "good"⟩,
              ⟨some "K", "Amy", none, "d1", "different text"⟩] ∧
    ∀ k : String,
      ((dedupe [⟨none, "Bob", none, "d0", "x"⟩,
                ⟨some "K", "Amy", none, "d1", "good"⟩,
                ⟨some "K", "Amy", none, "d1", "different text"⟩]).filter
        (fun x => keyOf x == k)).length ≤ 1 :=
  c4_dedupe_amended [⟨none, "Bob", none, "d0", "x"⟩]
    [⟨some "K", "Amy", none, "d1", "different text"⟩]
    ⟨some "K", "Amy", none, "d1", "good"⟩ (by decide)
    (by decide)

/-- Counterexample to C4 as stated: two records share the identity key "K"
and their texts differ, yet the FIRST in encounter order (empty text) is
dropped and the later one survives — the empty-text filter runs before the
seen-set, so first-seen-wins does not hold for every input list. -/
theorem c4_counterexample :
    keyOf ⟨some "K", "", none, "", ""⟩ = keyOf ⟨some "K", "", none, "", "hi"⟩ ∧
    dedupe [⟨some "K", "", none, "", ""⟩, ⟨some "K", "", none, "", "hi"⟩]
      = [⟨some "K", "", none, "", "hi"⟩] ∧
    (⟨some "K", "", none, "", ""⟩ : SRecord) ∉
      dedupe [⟨some "K", "", none, "", ""⟩, ⟨some "K", "", none, "", "hi"⟩] := by decide

/-- Claim C5, amended: Curl/parse.py pads its review list with sentinel
placeholders up to its fixed floor of five, by appends only — the genuine
records stay as an unchanged prefix with their original text; scraper.py's
configurable `--min` floor, in contrast, never pads (see the
counterexample). -/
theorem c5_padding_amended (bs : List Block) :
    parse_run bs =
      parse_reviews bs ++
        List.replicate (parse_floor - (parse_reviews bs).length) padPlaceholder ∧
    parse_floor ≤ (parse_run bs).length ∧
    padPlaceholder.text = "" ∧ padPlaceholder.reviewer = "Anonymous" ∧
    padPlaceholder.rating = none ∧ padPlaceholder.date = "" := by
  refine ⟨?_, ?_, rfl, rfl, rfl, rfl⟩
  · unfold parse_run padReviews
    by_cases h : (parse_reviews bs).length < parse_floor
    · rw [if_pos h]
    · rw [if_neg h]
      have h0 : parse_floor - (parse_reviews bs).length = 0 := by omega
      simp [h0]
  · unfold parse_run padReviews
    by_cases h : (parse_reviews bs).length < parse_floor
    · rw [if_pos h]
      simp only [List.length_append, List.length_replicate]
      omega
    · rw [if_neg h]
      omega

/-- Counterexample to C5 as stated: a scraper.py run with its configured
floor (default 15) ends with a single genuine record and no placeholders —
the final list stays below the floor and the floor only triggers a note. -/
theorem c5_counterexample :
    0 < scraper_min_default ∧
    scraper_run
        [⟨[("k", ⟨"Review", "", "Great food", "", "e1", "", none, "", "", "User:abc"⟩)], []⟩]
      = [⟨some "e1", "", none, "", "Great food"⟩] ∧
    (scraper_run
        [⟨[("k", ⟨"Review", "", "Great food", "", "e1", "", none, "", "", "User:abc"⟩)], []⟩]).length
      < scraper_min_default ∧
    scraper_warns
        [⟨[("k", ⟨"Review", "", "Great food", "", "e1", "", none, "", "", "User:abc"⟩)], []⟩]
        scraper_min_default = true := by decide

/-- Claim C6, amended: in both DOM extractors the machine-readable `datetime`
attribute is consulted only AFTER the visible-text date resolution came up
empty — when the visible cascade is empty and a `<time>` element carries a
`datetime` attribute, that attribute becomes the date. -/
theorem c6_date_amended (b : Block) (t : TimeElem) (dt : String)
    (h1 : b.timeEl = some t) (h2 : t.datetimeAttr = some dt) :
    (s_dateVis b = "" → s_date b = dt) ∧
    (b.yCssDate.getD "" = "" → p_date b = dt) := by
  constructor
  · intro h
    unfold s_date
    simp only [h, if_pos, ite_true, h1]
    rw [h2]
    rfl
  · intro h
    unfold p_date
    simp only [h, ite_true, h1, h2]

/-- Witness for C6 (amended) on a container whose only date source is a
`<time>` element with a `datetime` attribute and empty visible text. -/
theorem c6_witness :
    s_date { emptyBlock with timeEl := some ⟨some "2023-05-01", ""⟩ } = "2023-05-01" ∧
    p_date { emptyBlock with timeEl := some ⟨some "2023-05-01", ""⟩ } = "2023-05-01" := by
  have h := c6_date_amended { emptyBlock with timeEl := some ⟨some "2023-05-01", ""⟩ }
    ⟨some "2023-05-01", ""⟩ "2023-05-01" rfl rfl
  exact ⟨h.1 (by decide), h.2 (by decide)⟩

/-- Counterexample to C6 as stated: a container holding a `<time>` element
with BOTH a machine-readable `datetime` attribute and visible date text gets
its date from the visible text — the "time" selector of the visible loop
matches first, so the attribute is never consulted. -/
theorem c6_counterexample :
    (({ emptyBlock with timeEl := some ⟨some "2023-05-01", "May 1, 2023"⟩ } : Block).timeEl
      = some ⟨some "2023-05-01", "May 1, 2023"⟩) ∧
    s_date { emptyBlock with timeEl := some ⟨some "2023-05-01", "May 1, 2023"⟩ }
      = "May 1, 2023" ∧
    s_date { emptyBlock with timeEl := some ⟨some "2023-05-01", "May 1, 2023"⟩ }
      ≠ "2023-05-01" := by decide

/-- Claim C7, amended: in scraper.py a container yields a record exactly when
reviewer, rating or text resolved truthy — a non-empty date alone does not
count (see the counterexample); in Curl/parse.py every discovered container
yields a record, because the reviewer cascade defaults to the non-empty
sentinel "Anonymous"; the fully empty container yields nothing in scraper.py
and no error anywhere. -/
theorem c7_emission_amended (b : Block) :
    ((s_record? b).isSome = true ↔
      (truthyOS (s_reviewer b) = true ∨ truthyOQ (s_rating b) = true ∨
        s_text b ≠ "")) ∧
    (p_block? b).isSome = true ∧
    s_record? emptyBlock = none := by
  refine ⟨?_, ?_, by decide⟩
  · unfold s_record?
    by_cases h : truthyOS (s_reviewer b) = true ∨ truthyOQ (s_rating b) = true ∨
        s_text b ≠ ""
    · simp [h]
    · simp [h]
  · unfold p_block?
    rw [if_pos (Or.inl (p_reviewer_ne b))]
    rfl

/-- Witness for C7 (amended): a text-only container is emitted by scraper.py
and even the empty container is emitted by parse.py. -/
theorem c7_witness :
    (s_record? { emptyBlock with pEl := some "nice" }).isSome = true ∧
    (p_block? emptyBlock).isSome = true :=
  ⟨(c7_emission_amended { emptyBlock with pEl := some "nice" }).1.mpr
      (Or.inr (Or.inr (by decide))),
   (c7_emission_amended emptyBlock).2.1⟩

/-- Counterexample to C7 as stated: a container whose date cascade resolves
to the non-empty "May 2023" but whose reviewer, rating and text are all
empty contributes NO record in scraper.py, although one of the four fields
is non-empty; and the all-empty container DOES contribute a record in
Curl/parse.py. -/
theorem c7_counterexample :
    s_record? { emptyBlock with yCssDate := some "May 2023" } = none ∧
    s_date { emptyBlock with yCssDate := some "May 2023" } = "May 2023" ∧
    (p_block? emptyBlock).isSome = true := by decide

/-- Claim C8: `parse_date` is total; it recognizes, in order,
timestamp-with-zone, timestamp-without-zone and date-only ISO forms,
returning the `YYYY-MM-DD` date component on success and the input unchanged
on failure. -/
theorem c8_parse_date_total (s : String) :
    (tsZone s.data = true →
      parse_date s = ⟨s.data.take 10⟩ ∧ dateShape (parse_date s).data = true) ∧
    (tsZone s.data = false → tsNoZone s.data = true →
      parse_date s = ⟨s.data.take 10⟩ ∧ dateShape (parse_date s).data = true) ∧
    (tsZone s.data = false → tsNoZone s.data = false → dateShape s.data = true →
      parse_date s = s ∧ dateShape (parse_date s).data = true) ∧
    (tsZone s.data = false → tsNoZone s.data = false → dateShape s.data = false →
      parse_date s = s) := by
  refine ⟨?_, ?_, ?_, ?_⟩
  · intro h
    have h1 : tsNoZone (s.data.take 19) = true := by
      unfold tsZone at h
      simp only [Bool.and_eq_true] at h
      exact h.1
    have h2 : dateShape ((s.data.take 19).take 10) = true := tsNoZone_dateShape _ h1
    rw [List.take_take] at h2
    norm_num at h2
    unfold parse_date
    rw [if_pos h]
    exact ⟨rfl, h2⟩
  · intro h0 h
    have h2 := tsNoZone_dateShape _ h
    unfold parse_date
    rw [if_neg (by simp [h0]), if_pos h]
    exact ⟨rfl, h2⟩
  · intro h0 h1 h
    have hlen := dateShape_len _ h
    have htake : s.data.take 10 = s.data := by
      rw [List.take_of_length_le (by omega)]
    unfold parse_date
    rw [if_neg (by simp [h0]), if_neg (by simp [h1]), if_pos h, htake]
    constructor
    · cases s
      rfl
    · cases s with
      | mk data => simpa using h
  · intro h0 h1 h2
    unfold parse_date
    rw [if_neg (by simp [h0]), if_neg (by simp [h1]), if_neg (by simp [h2])]

/-- Witness for C8 on one input of each form, plus an unparseable one. -/
theorem c8_witness :
    parse_date "2023-05-01T10:00:00+02:00" = "2023-05-01" ∧
    parse_date "2023-06-02T10:00:00" = "2023-06-02" ∧
    parse_date "2023-07-03" = "2023-07-03" ∧
    parse_date "May 1, 2023" = "May 1, 2023" :=
  ⟨((c8_parse_date_total "2023-05-01T10:00:00+02:00").1 (by decide)).1,
   ((c8_parse_date_total "2023-06-02T10:00:00").2.1 (by decide) (by decide)).1,
   ((c8_parse_date_total "2023-07-03").2.2.1 (by decide) (by decide) (by decide)).1,
   (c8_parse_date_total "May 1, 2023").2.2.2 (by decide) (by decide) (by decide)⟩

/-- Claim C9, amended: the entity unescaper is idempotent on every string
whose decoded form contains no ampersand; in general a second application
can decode further (see the counterexample). -/
theorem c9_unesc_amended (s : String) (h : '&' ∉ (unesc s).data) :
    unesc (unesc s) = unesc s := by
  unfold unesc
  cases hu : unesc s with
  | mk data =>
    have hd : unescGo false s.data = data := by
      have := congrArg String.data hu
      simpa [unesc] using this
    rw [hd]
    rw [unescGo_no_amp data (by rw [hu] at h; exact h)]

/-- Witness for C9 (amended) on a string with one entity. -/
theorem c9_witness :
    ('&' ∉ (unesc "a&lt;b").data) ∧ unesc (unesc "a&lt;b") = unesc "a&lt;b" :=
  ⟨by decide, c9_unesc_amended "a&lt;b" (by decide)⟩

/-- Counterexample to C9 as stated: the double-escaped input repays a second
decoding — `unesc` is not idempotent. -/
theorem c9_counterexample :
    unesc "&amp;amp;" = "&amp;" ∧
    unesc (unesc "&amp;amp;") = "&" ∧
    unesc (unesc "&amp;amp;") ≠ unesc "&amp;amp;" := by decide

/-- Claim C10, amended: `review_count` is an integer or none, EXCEPT when the
leftmost `[0-9,]+` match of the raw count text is all commas — then the
`int("")` failure path stores the raw string itself. -/
theorem c10_review_count_amended (o : Option String) :
    rc_of o = RCVal.rcNone ∨ (∃ n : Nat, rc_of o = RCVal.rcInt n) ∨
    (∃ raw grp, o = some raw ∧ firstRCRun raw.data = some grp ∧ grp ≠ [] ∧
      (∀ c ∈ grp, c = ',') ∧ rc_of o = RCVal.rcStr raw) := by
  match o with
  | none => exact Or.inl rfl
  | some raw =>
    simp only [rc_of]
    by_cases h0 : raw = ""
    · rw [if_pos h0]
      exact Or.inl rfl
    · rw [if_neg h0]
      cases hrun : firstRCRun raw.data with
      | none => exact Or.inl (by simp [rcOfRun])
      | some grp =>
        simp only [rcOfRun]
        by_cases hds : grp.filter (fun c => decide (c ≠ ',')) = []
        · rw [if_pos hds]
          refine Or.inr (Or.inr
            ⟨raw, grp, rfl, hrun, firstRCRun_ne_nil _ _ hrun, ?_, rfl⟩)
          intro c hc
          by_contra hne
          have hmem : c ∈ grp.filter (fun x => decide (x ≠ ',')) := by
            rw [List.mem_filter]
            exact ⟨hc, by simpa using hne⟩
          rw [hds] at hmem
          exact absurd hmem (List.not_mem_nil c)
        · rw [if_neg hds]
          exact Or.inr (Or.inl ⟨_, rfl⟩)

/-- Counterexample to C10 as stated: a container whose review-count selector
text is "," flows through parse.py's pipeline into a final record whose
`review_count` is the raw string "," — neither an integer nor none. -/
theorem c10_counterexample :
    (parse_run [{ emptyBlock with rcRaw := some "," }]).map PReview.review_count
      = [RCVal.rcStr ",", RCVal.rcNone, RCVal.rcNone, RCVal.rcNone, RCVal.rcNone] ∧
    (∀ n : Nat, RCVal.rcStr "," ≠ RCVal.rcInt n) ∧
    RCVal.rcStr "," ≠ RCVal.rcNone := by
  refine ⟨by decide, ?_, by decide⟩
  intro n
  exact fun h => RCVal.noConfusion h

end Webscraping
